import Mathlib

/-!
# mykmod: a demand-paged character device (`mykmod_main.c`)

Shallow embedding of the kernel module's entry points
(`mykmod_init_module`, `mykmod_cleanup_module`, `mykmod_open`, `mykmod_close`,
`mykmod_mmap`, `mykmod_vm_open`, `mykmod_vm_close`, `mykmod_vm_fault`) as pure
functions over an explicit kernel state.

Modelling conventions.

* Pointers are natural numbers (addresses); `NULL` is `0`.
* `unsigned long` arithmetic is arithmetic modulo `2 ^ 64`.
* Objects reached through pointers (`struct mykmod_dev_info`,
  `struct mykmod_vma_info`) live in typed heaps `Ptr → Option _`; dereferencing
  `NULL` or an address holding no object is a kernel oops, modelled as `none`.
* The value returned by each `kmalloc`/`kzalloc` call is an explicit argument
  of the function that makes the call (the allocator is part of the
  environment); the source never tests it against `NULL`.
* `MYDEV_LEN` (from `mydev.h`) and the platform primitive `virt_to_page` are
  parameters.
-/

namespace Mykmod

/-! ## Constants and machine arithmetic -/

/-- A machine address; `0` is the null pointer. -/
abbrev Ptr := Nat

/-- The null pointer. -/
def NULL : Ptr := 0

/-- Source: `#define MYKMOD_MAX_DEVS 256`. -/
def MYKMOD_MAX_DEVS : Nat := 256

/-- Source: `#define PAGE_SIZ 4096`. -/
def PAGE_SIZ : Nat := 4096

/-- Number of values of a C `unsigned long` on the 64-bit kernel: `2 ^ 64`. -/
def ULONG_RANGE : Nat := 18446744073709551616

/-- Linux `EINVAL` (`errno-base.h`). -/
def EINVAL : Int := 22

/-- Linux `VM_FAULT_SIGSEGV` (`linux/mm.h`). -/
def VM_FAULT_SIGSEGV : Int := 64

/-- Linux `VM_DONTEXPAND` (`linux/mm.h`). -/
def VM_DONTEXPAND : Nat := 0x00040000

/-- Linux `VM_DONTDUMP` (`linux/mm.h`). -/
def VM_DONTDUMP : Nat := 0x04000000

/-- Addition `a + b` on `unsigned long`. -/
def ul_add (a b : Nat) : Nat := (a + b) % ULONG_RANGE

/-- Subtraction `a - b` on `unsigned long`. -/
def ul_sub (a b : Nat) : Nat := (a % ULONG_RANGE + (ULONG_RANGE - b % ULONG_RANGE)) % ULONG_RANGE

/-- Multiplication `a * b` on `unsigned long`. -/
def ul_mul (a b : Nat) : Nat := (a * b) % ULONG_RANGE

/-! ## Data structures -/

/-- The Device Record, `struct mykmod_dev_info`. -/
structure mykmod_dev_info where
  /-- Field `char *data`: base address of the device buffer. -/
  data : Ptr
  /-- Field `size_t size`. -/
  size : Nat
deriving DecidableEq

/-- The Mapping Session, `struct mykmod_vma_info`. -/
structure mykmod_vma_info where
  /-- Field `struct mykmod_dev_info *dev_info`. -/
  dev_info : Ptr
  /-- Field `unsigned long int npagefaults`. -/
  npagefaults : Nat
deriving DecidableEq

/-- Value of `vma->vm_ops`: either the address of this module's
`mykmod_vm_ops` table or anything else. -/
inductive vm_ops_ptr where
  | other (addr : Nat)
  | mykmod_vm_ops
deriving DecidableEq

/-- The fields of `struct vm_area_struct` the module touches. -/
structure vm_area_struct where
  vm_start : Nat
  vm_end : Nat
  vm_pgoff : Nat
  vm_flags : Nat
  vm_ops : vm_ops_ptr
  vm_private_data : Ptr
deriving DecidableEq

/-- The fields of `struct vm_fault` the module touches; `page = none` is a
null `struct page *`. -/
structure vm_fault where
  pgoff : Nat
  page : Option Nat
deriving DecidableEq

/-- The field of `struct file` the module touches. -/
structure file where
  private_data : Ptr
deriving DecidableEq

/-- Kernel state visible to the module. -/
structure State where
  /-- Value of `inode->i_private`, per inode (inodes are identified by address). -/
  i_private : Nat → Ptr
  /-- Live `struct mykmod_dev_info` objects. -/
  dev_heap : Ptr → Option mykmod_dev_info
  /-- Live `struct mykmod_vma_info` objects. -/
  vma_heap : Ptr → Option mykmod_vma_info
  /-- Byte contents of memory (device buffers). -/
  mem : Nat → Nat
  /-- Reference count of each `struct page`. -/
  page_ref : Nat → Nat
  /-- The global `dev_table` pointer. -/
  dev_table : Ptr
  /-- Contents of the words `dev_table[0]`, `dev_table[1]`, ... (the
  allocation made by `mykmod_init_module` covers indices below
  `MYKMOD_MAX_DEVS` only). -/
  dev_slots : Nat → Ptr
  /-- The global `n_dev`. -/
  n_dev : Nat
  /-- The global `mykmod_major`. -/
  mykmod_major : Int

/-- State right after the module image is loaded: the static initialiser
`n_dev = 0`, zeroed globals, no inode opened, nothing allocated. -/
def boot : State where
  i_private := fun _ => NULL
  dev_heap := fun _ => none
  vma_heap := fun _ => none
  mem := fun _ => 0
  page_ref := fun _ => 0
  dev_table := NULL
  dev_slots := fun _ => NULL
  n_dev := 0
  mykmod_major := 0

/-- Read the object a pointer refers to; `none` when the pointer is `NULL`
or refers to no live object. -/
def deref {α : Type} (heap : Ptr → Option α) (p : Ptr) : Option α :=
  if p = NULL then none else heap p

/-! ## Module entry points -/

/-- Entry point `mykmod_init_module`. `major` is the value returned by `register_chrdev`,
`table` the value returned by `kmalloc` for the device table, `junk` the
(uninitialised) contents of the memory at that address. -/
def mykmod_init_module (st : State) (major : Int) (table : Ptr) (junk : Nat → Ptr) :
    Int × State :=
  if major < 0 then
    (1, { st with mykmod_major := major })
  else
    (0, { st with mykmod_major := major, dev_table := table, dev_slots := junk })

/-- The `while (i < n_dev)` loop of `mykmod_cleanup_module`; returns the
arguments of the `kfree` calls made so far, in order. -/
def cleanup_loop (st : State) (i : Nat) (freed : List Ptr) : List Ptr :=
  if i < st.n_dev then
    cleanup_loop st (i + 1) (freed ++ [st.dev_slots i])
  else
    freed
termination_by st.n_dev - i

/-- Entry point `mykmod_cleanup_module`: the arguments of all `kfree` calls, in order
(the loop over the table, then the table itself). -/
def mykmod_cleanup_module (st : State) : List Ptr :=
  cleanup_loop st 0 [] ++ [st.dev_table]

/-- Entry point `mykmod_open`. `info` is the value returned by
`kmalloc(sizeof(struct mykmod_dev_info))` and `data` the value returned by
`kzalloc(MYDEV_LEN)`; both are used only when `inodep->i_private` is `NULL`. -/
def mykmod_open (MYDEV_LEN : Nat) (st : State) (inodep : Nat) (filep : file)
    (info data : Ptr) : Option (Int × file × State) :=
  if st.i_private inodep = NULL then
    if info = NULL then
      none
    else
      let st1 : State := { st with
        dev_heap := Function.update st.dev_heap info (some ⟨data, MYDEV_LEN⟩)
        mem := fun a =>
          if data ≠ NULL ∧ data ≤ a ∧ a < data + MYDEV_LEN then 0 else st.mem a
        i_private := Function.update st.i_private inodep info }
      if st1.n_dev ≤ MYKMOD_MAX_DEVS then
        if st1.dev_table = NULL then
          none
        else
          some (0, { filep with private_data := info },
            { st1 with
              dev_slots := Function.update st1.dev_slots st1.n_dev info
              n_dev := st1.n_dev + 1 })
      else
        some (0, { filep with private_data := info }, st1)
  else
    some (0, { filep with private_data := st.i_private inodep }, st)

/-- Entry point `mykmod_close`. -/
def mykmod_close (st : State) (_inodep : Nat) (_filep : file) : Int × State :=
  (0, st)

/-- Entry point `mykmod_vm_open`. -/
def mykmod_vm_open (st : State) (vma : vm_area_struct) : Option State :=
  match deref st.vma_heap vma.vm_private_data with
  | none => none
  | some info_open =>
    some { st with
      vma_heap := Function.update st.vma_heap vma.vm_private_data
        (some { info_open with npagefaults := 0 }) }

/-- Entry point `mykmod_vm_close`. -/
def mykmod_vm_close (st : State) (vma : vm_area_struct) : Option State :=
  match deref st.vma_heap vma.vm_private_data with
  | none => none
  | some info_close =>
    some { st with
      vma_heap := Function.update st.vma_heap vma.vm_private_data
        (some { info_close with npagefaults := 0 }) }

/-- The right-hand side of the comparison in `mykmod_mmap`:
`(vma->vm_pgoff * PAGE_SIZ) + vma->vm_end - vma->vm_start`. -/
def mmap_extent (vma : vm_area_struct) : Nat :=
  ul_sub (ul_add (ul_mul vma.vm_pgoff PAGE_SIZ) vma.vm_end) vma.vm_start

/-- Entry point `mykmod_mmap`. `v_info` is the value returned by
`kmalloc(sizeof(struct mykmod_vma_info))`, `junk` the uninitialised content of
its `npagefaults` field. -/
def mykmod_mmap (MYDEV_LEN : Nat) (st : State) (filp : file) (vma : vm_area_struct)
    (v_info : Ptr) (junk : Nat) : Option (Int × vm_area_struct × State) :=
  if MYDEV_LEN < mmap_extent vma then
    some (-EINVAL, vma, st)
  else
    let vma1 : vm_area_struct := { vma with
      vm_ops := vm_ops_ptr.mykmod_vm_ops
      vm_flags := vma.vm_flags ||| (VM_DONTEXPAND ||| VM_DONTDUMP) }
    if v_info = NULL then
      none
    else
      let st1 : State := { st with
        vma_heap := Function.update st.vma_heap v_info (some ⟨filp.private_data, junk⟩) }
      let vma2 : vm_area_struct := { vma1 with vm_private_data := v_info }
      match mykmod_vm_open st1 vma2 with
      | none => none
      | some st2 => some (0, vma2, st2)

/-- The byte offset `(vmf->pgoff + vma->vm_pgoff) * PAGE_SIZ` that
`mykmod_vm_fault` adds to the buffer base. -/
def fault_offset (pgoff vm_pgoff : Nat) : Nat :=
  ul_mul (ul_add pgoff vm_pgoff) PAGE_SIZ

/-- Entry point `mykmod_vm_fault`. The pointer sum `data + offset` is taken
modulo `2 ^ 64`, as on the flat 64-bit kernel address space. -/
def mykmod_vm_fault (virt_to_page : Nat → Nat) (st : State) (vma : vm_area_struct)
    (vmf : vm_fault) : Option (Int × vm_fault × State) :=
  if vma.vm_private_data ≠ NULL then
    match st.vma_heap vma.vm_private_data with
    | none => none
    | some info_fault =>
      let st1 : State := { st with
        vma_heap := Function.update st.vma_heap vma.vm_private_data
          (some { info_fault with npagefaults := ul_add info_fault.npagefaults 1 }) }
      match deref st1.dev_heap info_fault.dev_info with
      | none => none
      | some dev =>
        let pageptr := virt_to_page (ul_add dev.data (fault_offset vmf.pgoff vma.vm_pgoff))
        some (0, { vmf with page := some pageptr },
          { st1 with
            page_ref := Function.update st1.page_ref pageptr (st1.page_ref pageptr + 1) })
  else
    some (-VM_FAULT_SIGSEGV, vmf, st)

/-- State left by a successful `mykmod_vm_fault` on a session at
`vma->vm_private_data` that held `⟨d, k⟩`, with Device Record `dev`: the fault
count is incremented and the resolved page gains one reference. -/
def fault_state (virt_to_page : Nat → Nat) (st : State) (vma : vm_area_struct)
    (vmf : vm_fault) (d k : Nat) (dev : mykmod_dev_info) : State :=
  { st with
    vma_heap := Function.update st.vma_heap vma.vm_private_data (some ⟨d, ul_add k 1⟩)
    page_ref := Function.update st.page_ref
      (virt_to_page (ul_add dev.data (fault_offset vmf.pgoff vma.vm_pgoff)))
      (st.page_ref (virt_to_page (ul_add dev.data (fault_offset vmf.pgoff vma.vm_pgoff))) + 1) }

/-! ## Runs of entry-point calls -/

/-- One call made by the kernel into the module, with its arguments. -/
inductive Op where
  | do_open (inodep : Nat) (filep : file) (info data : Ptr)
  | do_close (inodep : Nat) (filep : file)
  | do_mmap (filp : file) (vma : vm_area_struct) (v_info : Ptr) (junk : Nat)
  | do_vm_open (vma : vm_area_struct)
  | do_vm_close (vma : vm_area_struct)
  | do_vm_fault (vma : vm_area_struct) (vmf : vm_fault)

/-- State after one call; `none` when the call oopses. -/
def step (MYDEV_LEN : Nat) (virt_to_page : Nat → Nat) (st : State) : Op → Option State
  | Op.do_open inodep filep info data =>
    (mykmod_open MYDEV_LEN st inodep filep info data).map (fun r => r.2.2)
  | Op.do_close inodep filep => some (mykmod_close st inodep filep).2
  | Op.do_mmap filp vma v_info junk =>
    (mykmod_mmap MYDEV_LEN st filp vma v_info junk).map (fun r => r.2.2)
  | Op.do_vm_open vma => mykmod_vm_open st vma
  | Op.do_vm_close vma => mykmod_vm_close st vma
  | Op.do_vm_fault vma vmf => (mykmod_vm_fault virt_to_page st vma vmf).map (fun r => r.2.2)

/-- State after a sequence of calls. -/
def run (MYDEV_LEN : Nat) (virt_to_page : Nat → Nat) (st : State) : List Op → Option State
  | [] => some st
  | op :: ops =>
    match step MYDEV_LEN virt_to_page st op with
    | none => none
    | some st1 => run MYDEV_LEN virt_to_page st1 ops

/-- One `mykmod_open` call on a device: the inode and the two allocator results. -/
structure open_call where
  inodep : Nat
  info : Ptr
  data : Ptr

/-- State after a sequence of `mykmod_open` calls. -/
def run_opens (MYDEV_LEN : Nat) (st : State) : List open_call → Option State
  | [] => some st
  | c :: cs =>
    match mykmod_open MYDEV_LEN st c.inodep ⟨NULL⟩ c.info c.data with
    | none => none
    | some r => run_opens MYDEV_LEN r.2.2 cs

/-! ## Concrete inputs used in the evaluations below -/

/-- The capacity named in the source comment on the `kzalloc` call
("A 1MB slice of memory"). -/
def one_megabyte : Nat := 1048576

/-- Page frame of an address, a concrete instance of `virt_to_page`. -/
def page_frame (addr : Nat) : Nat := addr / PAGE_SIZ

/-- A one-page mapping request at file offset 0. -/
def first_page_vma : vm_area_struct where
  vm_start := 0x7f0000000000
  vm_end := 0x7f0000001000
  vm_pgoff := 0
  vm_flags := 0
  vm_ops := vm_ops_ptr.other 0
  vm_private_data := NULL

/-- A two-page mapping request at file offset 0. -/
def two_page_vma : vm_area_struct where
  vm_start := 0x7f0000000000
  vm_end := 0x7f0000002000
  vm_pgoff := 0
  vm_flags := 0
  vm_ops := vm_ops_ptr.other 0
  vm_private_data := NULL

/-- A one-page mapping request at page offset `2 ^ 52 - 1`, the largest page
offset whose byte offset `vm_pgoff * PAGE_SIZ` fits an `unsigned long`. -/
def wrap_vma : vm_area_struct where
  vm_start := 0x7f0000000000
  vm_end := 0x7f0000001000
  vm_pgoff := 4503599627370495
  vm_flags := 0
  vm_ops := vm_ops_ptr.other 0
  vm_private_data := NULL

/-- A state with one Device Record at address `0x1000` whose buffer starts at
`0x100000`, owned by inode `7`. -/
def one_device : State :=
  { boot with
    i_private := Function.update boot.i_private 7 0x1000
    dev_heap := Function.update boot.dev_heap 0x1000 (some ⟨0x100000, one_megabyte⟩)
    dev_table := 0x800
    dev_slots := Function.update boot.dev_slots 0 0x1000
    n_dev := 1 }

/-- The state `one_device` with a Mapping Session at `0x2000` on the record
`0x1000` whose fault counter holds the largest `unsigned long`. -/
def saturated_mapping : State :=
  { one_device with
    vma_heap := Function.update one_device.vma_heap 0x2000
      (some ⟨0x1000, 18446744073709551615⟩) }

/-- The vma of an established one-page mapping whose session is at `0x2000`. -/
def mapped_vma : vm_area_struct :=
  { first_page_vma with
    vm_ops := vm_ops_ptr.mykmod_vm_ops
    vm_flags := VM_DONTEXPAND ||| VM_DONTDUMP
    vm_private_data := 0x2000 }

/-- The state after a successful `mykmod_init_module` from `boot`: major number
240, device table allocated at `0x8000`, its words reading `NULL`. -/
def initial : State :=
  (mykmod_init_module boot 240 0x8000 (fun _ => NULL)).2

/-- The first `n` opens of pairwise distinct, never opened inodes `0, 1, ...`;
call `i` is handed the record address `0x10000 + 16 * i` and the buffer address
`0x40000000 + 0x100000 * i`. -/
def fresh_calls (n : Nat) : List open_call :=
  (List.range n).map (fun i => ⟨i, 0x10000 + 16 * i, 0x40000000 + 0x100000 * i⟩)

/-- The state `initial` after inode 7 was opened with record `0x10000` and
buffer `0x40000000`. -/
def opened_once : State :=
  { initial with
    dev_heap := Function.update initial.dev_heap 0x10000 (some ⟨0x40000000, one_megabyte⟩)
    mem := fun a =>
      if (0x40000000 : Nat) ≠ NULL ∧ 0x40000000 ≤ a ∧ a < 0x40000000 + one_megabyte then 0
      else initial.mem a
    i_private := Function.update initial.i_private 7 0x10000
    dev_slots := Function.update initial.dev_slots initial.n_dev 0x10000
    n_dev := initial.n_dev + 1 }

/-! ## Bounds check of `mykmod_mmap` -/

theorem mmap_extent_no_overflow (vma : vm_area_struct)
    (hle : vma.vm_start ≤ vma.vm_end) (hend : vma.vm_end < ULONG_RANGE)
    (hno : vma.vm_pgoff * PAGE_SIZ + (vma.vm_end - vma.vm_start) < ULONG_RANGE) :
    mmap_extent vma = vma.vm_pgoff * PAGE_SIZ + (vma.vm_end - vma.vm_start) := by
  unfold mmap_extent ul_sub ul_add ul_mul
  unfold ULONG_RANGE PAGE_SIZ at *
  omega

theorem mmap_extent_le (vma : vm_area_struct)
    (hle : vma.vm_start ≤ vma.vm_end) (hend : vma.vm_end < ULONG_RANGE) :
    mmap_extent vma ≤ vma.vm_pgoff * PAGE_SIZ + (vma.vm_end - vma.vm_start) := by
  unfold mmap_extent ul_sub ul_add ul_mul
  unfold ULONG_RANGE PAGE_SIZ at *
  omega

/-- When the byte extent of the request does not wrap
around `2 ^ 64`, an extent above the capacity is rejected with `-EINVAL` and
neither the vma nor the state is touched. -/
theorem mykmod_mmap_rejects_unwrapped (MYDEV_LEN : Nat) (st : State) (filp : file)
    (vma : vm_area_struct) (v_info : Ptr) (junk : Nat)
    (hle : vma.vm_start ≤ vma.vm_end) (hend : vma.vm_end < ULONG_RANGE)
    (hno : vma.vm_pgoff * PAGE_SIZ + (vma.vm_end - vma.vm_start) < ULONG_RANGE)
    (hbig : MYDEV_LEN < vma.vm_pgoff * PAGE_SIZ + (vma.vm_end - vma.vm_start)) :
    mykmod_mmap MYDEV_LEN st filp vma v_info junk = some (-EINVAL, vma, st) := by
  unfold mykmod_mmap
  rw [mmap_extent_no_overflow vma hle hend hno, if_pos hbig]

/-- The scenario of the specification: capacity 4096, offset 0, length 8192 is
rejected and the vma is returned as it was. -/
theorem mykmod_mmap_rejects_two_pages (st : State) (filp : file) (v_info : Ptr) (junk : Nat) :
    mykmod_mmap 4096 st filp two_page_vma v_info junk = some (-EINVAL, two_page_vma, st) :=
  mykmod_mmap_rejects_unwrapped 4096 st filp two_page_vma v_info junk
    (by decide) (by decide) (by decide) (by decide)

/-- C1 (the code departs from the claim). The request `wrap_vma` has page
offset `2 ^ 52 - 1` and length 4096, so `offset_in_pages * PAGE_SIZE + length`
is `2 ^ 64`, far above the capacity of one megabyte; its fields are all
representable as `unsigned long`. The comparison in `mykmod_mmap` is made on
the wrapped value `0`, the request is accepted: the call returns 0, not
`-EINVAL`, and installs a Mapping Session in the vma. -/
theorem mykmod_mmap_accepts_wrapped_extent :
    one_megabyte < wrap_vma.vm_pgoff * PAGE_SIZ + (wrap_vma.vm_end - wrap_vma.vm_start) ∧
    wrap_vma.vm_pgoff < ULONG_RANGE ∧ wrap_vma.vm_start ≤ wrap_vma.vm_end ∧
    wrap_vma.vm_end < ULONG_RANGE ∧
    mmap_extent wrap_vma = 0 ∧
    (mykmod_mmap one_megabyte one_device ⟨0x1000⟩ wrap_vma 0x2000 0).map
        (fun r => (r.1, r.2.1.vm_private_data, r.2.1.vm_ops, r.2.2.vma_heap 0x2000)) =
      some (0, 0x2000, vm_ops_ptr.mykmod_vm_ops, some ⟨0x1000, 0⟩) ∧
    (0 : Int) ≠ -EINVAL := by
  refine ⟨by decide, by decide, by decide, by decide, by decide, ?_, by decide⟩
  decide

/-! ## Establishing a mapping -/

/-- C7. For every file handle, every state and every request whose extent
`vm_pgoff * PAGE_SIZ + (vm_end - vm_start)` is at most `MYDEV_LEN`,
`mykmod_mmap` (given a non-null `kmalloc` result `v_info`) returns 0; the vma
then carries `vm_private_data = v_info`, the module's `vm_ops` and the two extra
flags, and the Mapping Session stored at `v_info` has `dev_info` equal to
`filp->private_data` and `npagefaults` equal to 0. Nothing else in the state
changes. -/
theorem mykmod_mmap_establishes (MYDEV_LEN : Nat) (st : State) (filp : file)
    (vma : vm_area_struct) (v_info : Ptr) (junk : Nat)
    (hle : vma.vm_start ≤ vma.vm_end) (hend : vma.vm_end < ULONG_RANGE)
    (hfit : vma.vm_pgoff * PAGE_SIZ + (vma.vm_end - vma.vm_start) ≤ MYDEV_LEN)
    (halloc : v_info ≠ NULL) :
    mykmod_mmap MYDEV_LEN st filp vma v_info junk =
      some (0,
        { vma with
          vm_ops := vm_ops_ptr.mykmod_vm_ops
          vm_flags := vma.vm_flags ||| (VM_DONTEXPAND ||| VM_DONTDUMP)
          vm_private_data := v_info },
        { st with
          vma_heap := Function.update st.vma_heap v_info (some ⟨filp.private_data, 0⟩) }) := by
  have hext := mmap_extent_le vma hle hend
  have hnot : ¬ MYDEV_LEN < mmap_extent vma := by omega
  unfold mykmod_mmap
  rw [if_neg hnot]
  simp [halloc, mykmod_vm_open, deref]

/-- The scenario of the specification: capacity 4096, offset 0, length 4096
succeeds. -/
theorem mykmod_mmap_establishes_witness :
    mykmod_mmap 4096 one_device ⟨0x1000⟩ first_page_vma 0x2000 99 =
      some (0,
        { first_page_vma with
          vm_ops := vm_ops_ptr.mykmod_vm_ops
          vm_flags := first_page_vma.vm_flags ||| (VM_DONTEXPAND ||| VM_DONTDUMP)
          vm_private_data := 0x2000 },
        { one_device with
          vma_heap := Function.update one_device.vma_heap 0x2000
            (some ⟨(⟨0x1000⟩ : file).private_data, 0⟩) }) :=
  mykmod_mmap_establishes 4096 one_device ⟨0x1000⟩ first_page_vma 0x2000 99
    (by decide) (by decide) (by decide) (by decide)

/-! ## Faults on a vma without a Mapping Session -/

/-- C6. For every state, every fault descriptor and every vma whose
`vm_private_data` is `NULL`, `mykmod_vm_fault` returns the non-zero code
`-VM_FAULT_SIGSEGV`; the fault descriptor (so `vmf->page`) and the whole state
(page reference counts, fault counters, Device Records) are returned
unchanged. -/
theorem mykmod_vm_fault_unestablished (virt_to_page : Nat → Nat) (st : State)
    (vma : vm_area_struct) (vmf : vm_fault) (hnull : vma.vm_private_data = NULL) :
    mykmod_vm_fault virt_to_page st vma vmf = some (-VM_FAULT_SIGSEGV, vmf, st) ∧
      -VM_FAULT_SIGSEGV ≠ 0 := by
  refine ⟨?_, by decide⟩
  unfold mykmod_vm_fault
  simp [hnull]

theorem mykmod_vm_fault_unestablished_witness :
    first_page_vma.vm_private_data = NULL ∧
    mykmod_vm_fault page_frame one_device first_page_vma ⟨0, none⟩ =
      some (-VM_FAULT_SIGSEGV, ⟨0, none⟩, one_device) ∧ -VM_FAULT_SIGSEGV ≠ 0 :=
  ⟨rfl, mykmod_vm_fault_unestablished page_frame one_device first_page_vma ⟨0, none⟩ rfl⟩

/-! ## Resolving faults -/

/-- For an accepted request whose byte extent does not
wrap around `2 ^ 64`, every fault page offset inside the mapping resolves to a
page that lies inside the buffer. -/
theorem fault_offset_in_bounds_unwrapped (MYDEV_LEN : Nat) (vma : vm_area_struct) (pgoff : Nat)
    (hle : vma.vm_start ≤ vma.vm_end) (hend : vma.vm_end < ULONG_RANGE)
    (hno : vma.vm_pgoff * PAGE_SIZ + (vma.vm_end - vma.vm_start) < ULONG_RANGE)
    (hacc : ¬ MYDEV_LEN < mmap_extent vma)
    (hin : pgoff * PAGE_SIZ < vma.vm_end - vma.vm_start)
    (hpages : (vma.vm_end - vma.vm_start) % PAGE_SIZ = 0) :
    fault_offset pgoff vma.vm_pgoff + PAGE_SIZ ≤ MYDEV_LEN := by
  rw [mmap_extent_no_overflow vma hle hend hno] at hacc
  unfold fault_offset ul_add ul_mul
  unfold ULONG_RANGE PAGE_SIZ at *
  omega

/-- C2 (the code departs from the claim). `mykmod_mmap` accepts `wrap_vma`
(returns 0) on a device of one megabyte; fault page offset 0 lies inside that
one-page mapping, whose length is a multiple of the page size; the byte offset
`mykmod_vm_fault` adds to the buffer base is `2 ^ 64 - 4096`, so
`offset + PAGE_SIZ` exceeds the capacity, and the fault returns 0 with the
page of the address 4096 bytes below the buffer base `0x100000`. -/
theorem fault_offset_escapes_buffer :
    (mykmod_mmap one_megabyte one_device ⟨0x1000⟩ wrap_vma 0x2000 0).map (fun r => r.1) = some 0 ∧
    0 * PAGE_SIZ < wrap_vma.vm_end - wrap_vma.vm_start ∧
    (wrap_vma.vm_end - wrap_vma.vm_start) % PAGE_SIZ = 0 ∧
    fault_offset 0 wrap_vma.vm_pgoff = 18446744073709547520 ∧
    ¬ (fault_offset 0 wrap_vma.vm_pgoff + PAGE_SIZ ≤ one_megabyte) ∧
    ((mykmod_mmap one_megabyte one_device ⟨0x1000⟩ wrap_vma 0x2000 0).bind
        (fun r => mykmod_vm_fault (fun a => a) r.2.2 r.2.1 ⟨0, none⟩)).map
        (fun r => (r.1, r.2.1.page)) = some (0, some 0xFF000) := by
  refine ⟨by decide, by decide, by decide, by decide, by decide, ?_⟩
  decide

/-- One fault on an active mapping: returns 0, sets `vmf->page` to the page of
`dev.data + (pgoff + vm_pgoff) * PAGE_SIZ`, increments the fault count and
takes one page reference. -/
theorem mykmod_vm_fault_active (virt_to_page : Nat → Nat) (st : State)
    (vma : vm_area_struct) (vmf : vm_fault) (d k : Nat) (dev : mykmod_dev_info)
    (hnn : vma.vm_private_data ≠ NULL)
    (hsession : st.vma_heap vma.vm_private_data = some ⟨d, k⟩)
    (hd : d ≠ NULL) (hdev : st.dev_heap d = some dev) :
    mykmod_vm_fault virt_to_page st vma vmf =
      some (0, { vmf with page := some (virt_to_page
          (ul_add dev.data (fault_offset vmf.pgoff vma.vm_pgoff))) },
        fault_state virt_to_page st vma vmf d k dev) := by
  unfold mykmod_vm_fault fault_state
  simp only [ne_eq, hnn, not_false_eq_true, if_true, hsession, deref, hd, if_false, hdev]

/-- C4 as stated fails where the counter wraps: with `npagefaults` equal to
`2 ^ 64 - 1`, two successive faults with the same page offset both return 0
and leave `npagefaults` equal to 1, which is not `(2 ^ 64 - 1) + 2`. -/
theorem fault_count_wraps :
    ((mykmod_vm_fault page_frame saturated_mapping mapped_vma ⟨0, none⟩).bind
        (fun r => (mykmod_vm_fault page_frame r.2.2 mapped_vma ⟨0, none⟩).map
          (fun q => (r.1, q.1, q.2.2.vma_heap 0x2000)))) =
      some (0, 0, some ⟨0x1000, 1⟩) ∧
    (1 : Nat) ≠ 18446744073709551615 + 2 := by
  refine ⟨?_, by decide⟩
  decide

/-- C4 (amended). For every state and every vma whose `vm_private_data` is a
non-null pointer `p` to a Mapping Session with fault count `k` and a valid
Device Record `dev` at `d`, two successive `mykmod_vm_fault` calls with the
same `pgoff` both return 0 and both set `vmf->page` to the page of
`dev.data + (pgoff + vm_pgoff) * PAGE_SIZ` (in `unsigned long` arithmetic);
the fault count is `(k + 1) mod 2 ^ 64` after the first call and
`(k + 2) mod 2 ^ 64` after the second. -/
theorem mykmod_vm_fault_twice (virt_to_page : Nat → Nat) (st : State)
    (vma : vm_area_struct) (vmf vmf2 : vm_fault) (p d k : Nat) (dev : mykmod_dev_info)
    (hp : vma.vm_private_data = p) (hnn : p ≠ NULL)
    (hsession : st.vma_heap p = some ⟨d, k⟩)
    (hd : d ≠ NULL) (hdev : st.dev_heap d = some dev)
    (hsame : vmf2.pgoff = vmf.pgoff) :
    ∃ st1 st2 : State,
      mykmod_vm_fault virt_to_page st vma vmf =
        some (0, { vmf with page := some (virt_to_page
          (ul_add dev.data (fault_offset vmf.pgoff vma.vm_pgoff))) }, st1) ∧
      st1.vma_heap p = some ⟨d, (k + 1) % ULONG_RANGE⟩ ∧
      mykmod_vm_fault virt_to_page st1 vma vmf2 =
        some (0, { vmf2 with page := some (virt_to_page
          (ul_add dev.data (fault_offset vmf.pgoff vma.vm_pgoff))) }, st2) ∧
      st2.vma_heap p = some ⟨d, (k + 2) % ULONG_RANGE⟩ := by
  subst hp
  have hk : ((k + 1) % ULONG_RANGE + 1) % ULONG_RANGE = (k + 2) % ULONG_RANGE := by
    unfold ULONG_RANGE; omega
  have h1 := mykmod_vm_fault_active virt_to_page st vma vmf d k dev hnn hsession hd hdev
  have hs1 : (fault_state virt_to_page st vma vmf d k dev).vma_heap vma.vm_private_data =
      some ⟨d, (k + 1) % ULONG_RANGE⟩ := by
    simp [fault_state, ul_add]
  have hd1 : (fault_state virt_to_page st vma vmf d k dev).dev_heap d = some dev := by
    simpa [fault_state] using hdev
  have h2 := mykmod_vm_fault_active virt_to_page _ vma vmf2 d _ dev hnn hs1 hd hd1
  refine ⟨_, fault_state virt_to_page (fault_state virt_to_page st vma vmf d k dev) vma vmf2 d
    ((k + 1) % ULONG_RANGE) dev, h1, hs1, ?_, ?_⟩
  · rw [← hsame]
    exact h2
  · simp [fault_state, ul_add, hk]

/-- The scenario of the specification: on a freshly established one-page
mapping at offset 0 (fault count 0), faulting page offset 0 twice gives fault
counts 1 and 2 and the same page both times. -/
theorem mykmod_vm_fault_twice_witness :
    ∃ st1 st2 : State,
      mykmod_vm_fault page_frame
          { one_device with
            vma_heap := Function.update one_device.vma_heap 0x2000 (some ⟨0x1000, 0⟩) }
          mapped_vma ⟨0, none⟩ =
        some (0, { (⟨0, none⟩ : vm_fault) with page := some (page_frame
          (ul_add 0x100000 (fault_offset 0 mapped_vma.vm_pgoff))) }, st1) ∧
      st1.vma_heap 0x2000 = some ⟨0x1000, (0 + 1) % ULONG_RANGE⟩ ∧
      mykmod_vm_fault page_frame st1 mapped_vma ⟨0, none⟩ =
        some (0, { (⟨0, none⟩ : vm_fault) with page := some (page_frame
          (ul_add 0x100000 (fault_offset 0 mapped_vma.vm_pgoff))) }, st2) ∧
      st2.vma_heap 0x2000 = some ⟨0x1000, (0 + 2) % ULONG_RANGE⟩ :=
  mykmod_vm_fault_twice page_frame
    { one_device with
      vma_heap := Function.update one_device.vma_heap 0x2000 (some ⟨0x1000, 0⟩) }
    mapped_vma ⟨0, none⟩ ⟨0, none⟩ 0x2000 0x1000 0 ⟨0x100000, one_megabyte⟩
    rfl (by decide) (by simp) (by decide) (by simp [one_device, one_megabyte]) rfl

/-! ## Closing a mapping -/

/-- Effect of `mykmod_vm_close` on a vma that carries a Mapping Session: only
the fault count of that session is written. -/
theorem mykmod_vm_close_active (st : State) (vma : vm_area_struct) (info : mykmod_vma_info)
    (hnn : vma.vm_private_data ≠ NULL)
    (hsession : st.vma_heap vma.vm_private_data = some info) :
    mykmod_vm_close st vma =
      some { st with
        vma_heap := Function.update st.vma_heap vma.vm_private_data
          (some ⟨info.dev_info, 0⟩) } := by
  unfold mykmod_vm_close deref
  simp only [hnn, if_false, hsession]

/-- C5 as stated fails: on a mapping established by a successful `mykmod_mmap`
(one page at offset 0 of the device `one_device`), a `mykmod_vm_fault` that
follows `mykmod_vm_close` returns 0, not `-VM_FAULT_SIGSEGV`, and sets
`vmf->page` to the first page of the buffer. -/
theorem fault_after_close_succeeds :
    ((mykmod_mmap one_megabyte one_device ⟨0x1000⟩ first_page_vma 0x2000 0).bind
        (fun r => (mykmod_vm_close r.2.2 r.2.1).bind
          (fun st2 => (mykmod_vm_fault page_frame st2 r.2.1 ⟨0, none⟩).map
            (fun q => (r.1, q.1, q.2.1.page))))) =
      some (0, 0, some 0x100) ∧
    (0 : Int) ≠ -VM_FAULT_SIGSEGV := by
  refine ⟨?_, by decide⟩
  decide

/-- C5 (amended). `mykmod_vm_close` does not invalidate the Mapping Session:
for every vma whose `vm_private_data` is non-null and points to a session with
a valid Device Record `dev` at `d`, `mykmod_vm_close` succeeds and leaves the
session in place with its `dev_info` and a fault count of 0; a
`mykmod_vm_fault` that follows returns 0, sets `vmf->page` to the page of
`dev.data + (pgoff + vm_pgoff) * PAGE_SIZ` and leaves the fault count at 1. -/
theorem mykmod_vm_fault_after_close (virt_to_page : Nat → Nat) (st : State)
    (vma : vm_area_struct) (vmf : vm_fault) (d k : Nat) (dev : mykmod_dev_info)
    (hnn : vma.vm_private_data ≠ NULL)
    (hsession : st.vma_heap vma.vm_private_data = some ⟨d, k⟩)
    (hd : d ≠ NULL) (hdev : st.dev_heap d = some dev) :
    ∃ st1 st2 : State,
      mykmod_vm_close st vma = some st1 ∧
      st1.vma_heap vma.vm_private_data = some ⟨d, 0⟩ ∧
      mykmod_vm_fault virt_to_page st1 vma vmf =
        some (0, { vmf with page := some (virt_to_page
          (ul_add dev.data (fault_offset vmf.pgoff vma.vm_pgoff))) }, st2) ∧
      st2.vma_heap vma.vm_private_data = some ⟨d, 1⟩ := by
  have hc := mykmod_vm_close_active st vma ⟨d, k⟩ hnn hsession
  have hs1 : ({ st with
      vma_heap := Function.update st.vma_heap vma.vm_private_data
        (some ⟨d, 0⟩) } : State).vma_heap vma.vm_private_data = some ⟨d, 0⟩ := by
    simp
  have hf := mykmod_vm_fault_active virt_to_page _ vma vmf d 0 dev hnn hs1 hd hdev
  refine ⟨_, _, hc, hs1, hf, ?_⟩
  simp [fault_state, ul_add, ULONG_RANGE]

theorem mykmod_vm_fault_after_close_witness :
    ∃ st1 st2 : State,
      mykmod_vm_close saturated_mapping mapped_vma = some st1 ∧
      st1.vma_heap mapped_vma.vm_private_data = some ⟨0x1000, 0⟩ ∧
      mykmod_vm_fault page_frame st1 mapped_vma ⟨0, none⟩ =
        some (0, { (⟨0, none⟩ : vm_fault) with page := some (page_frame
          (ul_add (⟨0x100000, one_megabyte⟩ : mykmod_dev_info).data
            (fault_offset (⟨0, none⟩ : vm_fault).pgoff mapped_vma.vm_pgoff))) }, st2) ∧
      st2.vma_heap mapped_vma.vm_private_data = some ⟨0x1000, 1⟩ :=
  mykmod_vm_fault_after_close page_frame saturated_mapping mapped_vma ⟨0, none⟩ 0x1000
    18446744073709551615 ⟨0x100000, one_megabyte⟩ (by decide)
    (by simp [saturated_mapping, mapped_vma]) (by decide)
    (by simp [saturated_mapping, one_device])

/-- C10. For every state and every vma that carries a Mapping Session (non-null
`vm_private_data` holding `info`, with any fault count), `mykmod_vm_close`
succeeds and leaves that session with `npagefaults = 0` and the same
`dev_info`; the Device Records (pointer, size), the buffer bytes, the device
table, `n_dev`, every inode's `i_private` and every other session are
unchanged, so a later `mykmod_open` on any inode returns the same result and
the same Device Record pointer as it would have before the close. -/
theorem mykmod_vm_close_frame (MYDEV_LEN : Nat) (st : State) (vma : vm_area_struct)
    (info : mykmod_vma_info)
    (hnn : vma.vm_private_data ≠ NULL)
    (hsession : st.vma_heap vma.vm_private_data = some info) :
    ∃ st1 : State,
      mykmod_vm_close st vma = some st1 ∧
      st1.vma_heap vma.vm_private_data = some ⟨info.dev_info, 0⟩ ∧
      (∀ q, q ≠ vma.vm_private_data → st1.vma_heap q = st.vma_heap q) ∧
      st1.dev_heap = st.dev_heap ∧ st1.mem = st.mem ∧
      st1.dev_table = st.dev_table ∧ st1.dev_slots = st.dev_slots ∧
      st1.n_dev = st.n_dev ∧ st1.i_private = st.i_private ∧
      st1.page_ref = st.page_ref ∧
      (∀ (inodep : Nat) (filep : file) (i d : Ptr),
        (mykmod_open MYDEV_LEN st1 inodep filep i d).map (fun r => (r.1, r.2.1)) =
          (mykmod_open MYDEV_LEN st inodep filep i d).map (fun r => (r.1, r.2.1))) := by
  refine ⟨_, mykmod_vm_close_active st vma info hnn hsession, by simp, ?_, rfl, rfl, rfl, rfl,
    rfl, rfl, rfl, ?_⟩
  · intro q hq
    simp [Function.update_noteq hq]
  · intro inodep filep i d
    unfold mykmod_open
    simp only
    split_ifs <;> rfl

theorem mykmod_vm_close_frame_witness :
    ∃ st1 : State,
      mykmod_vm_close saturated_mapping mapped_vma = some st1 ∧
      st1.vma_heap mapped_vma.vm_private_data =
        some ⟨(⟨0x1000, 18446744073709551615⟩ : mykmod_vma_info).dev_info, 0⟩ ∧
      (∀ q, q ≠ mapped_vma.vm_private_data →
        st1.vma_heap q = saturated_mapping.vma_heap q) ∧
      st1.dev_heap = saturated_mapping.dev_heap ∧ st1.mem = saturated_mapping.mem ∧
      st1.dev_table = saturated_mapping.dev_table ∧
      st1.dev_slots = saturated_mapping.dev_slots ∧
      st1.n_dev = saturated_mapping.n_dev ∧ st1.i_private = saturated_mapping.i_private ∧
      st1.page_ref = saturated_mapping.page_ref ∧
      (∀ (inodep : Nat) (filep : file) (i d : Ptr),
        (mykmod_open one_megabyte st1 inodep filep i d).map (fun r => (r.1, r.2.1)) =
          (mykmod_open one_megabyte saturated_mapping inodep filep i d).map
            (fun r => (r.1, r.2.1))) :=
  mykmod_vm_close_frame one_megabyte saturated_mapping mapped_vma
    ⟨0x1000, 18446744073709551615⟩ (by decide) (by simp [saturated_mapping, mapped_vma])

/-! ## Opening devices -/

/-- First open of an inode while the guard `n_dev <= MYKMOD_MAX_DEVS` holds:
the record is created, attached to the inode, stored at `dev_table[n_dev]`,
and `n_dev` is incremented. -/
theorem mykmod_open_fresh (MYDEV_LEN : Nat) (st : State) (inodep : Nat) (filep : file)
    (info data : Ptr) (hfresh : st.i_private inodep = NULL) (halloc : info ≠ NULL)
    (hguard : st.n_dev ≤ MYKMOD_MAX_DEVS) (htable : st.dev_table ≠ NULL) :
    mykmod_open MYDEV_LEN st inodep filep info data =
      some (0, ⟨info⟩,
        { st with
          dev_heap := Function.update st.dev_heap info (some ⟨data, MYDEV_LEN⟩)
          mem := fun a =>
            if data ≠ NULL ∧ data ≤ a ∧ a < data + MYDEV_LEN then 0 else st.mem a
          i_private := Function.update st.i_private inodep info
          dev_slots := Function.update st.dev_slots st.n_dev info
          n_dev := st.n_dev + 1 }) := by
  unfold mykmod_open
  simp only [hfresh, if_true, halloc, if_false, hguard, htable]

/-- First open of an inode once `n_dev` exceeds `MYKMOD_MAX_DEVS`: the record
is created and attached to the inode, the table and `n_dev` are not written. -/
theorem mykmod_open_full (MYDEV_LEN : Nat) (st : State) (inodep : Nat) (filep : file)
    (info data : Ptr) (hfresh : st.i_private inodep = NULL) (halloc : info ≠ NULL)
    (hguard : MYKMOD_MAX_DEVS < st.n_dev) :
    mykmod_open MYDEV_LEN st inodep filep info data =
      some (0, ⟨info⟩,
        { st with
          dev_heap := Function.update st.dev_heap info (some ⟨data, MYDEV_LEN⟩)
          mem := fun a =>
            if data ≠ NULL ∧ data ≤ a ∧ a < data + MYDEV_LEN then 0 else st.mem a
          i_private := Function.update st.i_private inodep info }) := by
  unfold mykmod_open
  simp only [hfresh, if_true, halloc, if_false, Nat.not_le.mpr hguard]

/-- Open of an inode that already has a record: nothing is allocated or
written, the file handle gets the inode's record. -/
theorem mykmod_open_again (MYDEV_LEN : Nat) (st : State) (inodep : Nat) (filep : file)
    (info data : Ptr) (hset : st.i_private inodep ≠ NULL) :
    mykmod_open MYDEV_LEN st inodep filep info data =
      some (0, ⟨st.i_private inodep⟩, st) := by
  unfold mykmod_open
  simp only [hset, if_false]

/-- A successful `mykmod_open` leaves the inode with a non-null record, which
is the one stored in the file handle. -/
theorem mykmod_open_attaches (MYDEV_LEN : Nat) (st st1 : State) (inodep : Nat)
    (filep filep1 : file) (info data : Ptr) (rc : Int)
    (hopen : mykmod_open MYDEV_LEN st inodep filep info data = some (rc, filep1, st1)) :
    st1.i_private inodep = filep1.private_data ∧ filep1.private_data ≠ NULL := by
  simp only [mykmod_open] at hopen
  split_ifs at hopen with h1 h2 h3 h4
  all_goals
    simp only [Option.some.injEq, Prod.mk.injEq] at hopen
    obtain ⟨-, hf, hs⟩ := hopen
    subst hf hs
    simp_all

/-- No entry point changes the record of an inode that has one. -/
theorem step_keeps_i_private (MYDEV_LEN : Nat) (virt_to_page : Nat → Nat) (st st1 : State)
    (op : Op) (hstep : step MYDEV_LEN virt_to_page st op = some st1) (i : Nat)
    (hi : st.i_private i ≠ NULL) : st1.i_private i = st.i_private i := by
  cases op with
  | do_open inodep filep info data =>
    simp only [step] at hstep
    rcases hr : mykmod_open MYDEV_LEN st inodep filep info data with _ | r
    · simp [hr] at hstep
    · simp only [hr, Option.map, Option.some.injEq] at hstep
      subst hstep
      simp only [mykmod_open] at hr
      split_ifs at hr with h1 h2 h3 h4
      all_goals
        simp only [Option.some.injEq] at hr
        subst hr
        try rfl
      all_goals
        have hne : i ≠ inodep := fun h => hi (h ▸ h1)
        simp [Function.update_noteq hne]
  | do_close inodep filep =>
    simp only [step, mykmod_close, Option.some.injEq] at hstep
    subst hstep
    rfl
  | do_mmap filp vma v_info junk =>
    simp only [step] at hstep
    rcases hr : mykmod_mmap MYDEV_LEN st filp vma v_info junk with _ | r
    · simp [hr] at hstep
    · simp only [hr, Option.map, Option.some.injEq] at hstep
      subst hstep
      simp only [mykmod_mmap, mykmod_vm_open, deref] at hr
      split_ifs at hr with h1 h2
      · simp only [Option.some.injEq] at hr
        subst hr
        rfl
      · simp only [h2, if_false, Function.update_same, Option.some.injEq] at hr
        subst hr
        rfl
  | do_vm_open vma =>
    simp only [step] at hstep
    unfold mykmod_vm_open deref at hstep
    split at hstep
    · simp at hstep
    · simp only [Option.some.injEq] at hstep
      subst hstep
      rfl
  | do_vm_close vma =>
    simp only [step] at hstep
    unfold mykmod_vm_close deref at hstep
    split at hstep
    · simp at hstep
    · simp only [Option.some.injEq] at hstep
      subst hstep
      rfl
  | do_vm_fault vma vmf =>
    simp only [step] at hstep
    rcases hr : mykmod_vm_fault virt_to_page st vma vmf with _ | r
    · simp [hr] at hstep
    simp only [hr, Option.map, Option.some.injEq] at hstep
    subst hstep
    simp only [mykmod_vm_fault] at hr
    split_ifs at hr with h1
    · split at hr
      · simp at hr
      · split at hr
        · simp at hr
        · simp only [Option.some.injEq] at hr
          subst hr
          rfl
    · simp only [Option.some.injEq] at hr
      subst hr
      rfl

/-- No sequence of entry-point calls changes the record of an inode that has one. -/
theorem run_keeps_i_private (MYDEV_LEN : Nat) (virt_to_page : Nat → Nat) (ops : List Op) :
    ∀ (st st1 : State), run MYDEV_LEN virt_to_page st ops = some st1 →
      ∀ i : Nat, st.i_private i ≠ NULL → st1.i_private i = st.i_private i := by
  induction ops with
  | nil =>
    intro st st1 hrun i _
    simp only [run, Option.some.injEq] at hrun
    subst hrun
    rfl
  | cons op ops ih =>
    intro st st1 hrun i hi
    simp only [run] at hrun
    split at hrun
    · simp at hrun
    · rename_i st2 hstep
      have h2 := step_keeps_i_private MYDEV_LEN virt_to_page st st2 op hstep i hi
      have h3 := ih st2 st1 hrun i (by rw [h2]; exact hi)
      rw [h3, h2]

/-- C3. For every state and every inode, once `mykmod_open` has succeeded on
the inode (leaving record pointer `filep1.private_data` in the file handle),
then after any sequence `ops` of later entry-point calls (opens of any inode,
closes, mmaps, vma opens and closes, faults) every further `mykmod_open` on
that inode returns 0, stores the very same non-null record pointer in the new
file handle and returns the state unchanged: no record is created, `dev_table`
and `n_dev` are not written. -/
theorem mykmod_open_same_record (MYDEV_LEN : Nat) (virt_to_page : Nat → Nat)
    (st st1 st2 : State) (inodep : Nat) (filep filep1 filep2 : file)
    (info data info2 data2 : Ptr) (ops : List Op)
    (hopen : mykmod_open MYDEV_LEN st inodep filep info data = some (0, filep1, st1))
    (hrun : run MYDEV_LEN virt_to_page st1 ops = some st2) :
    filep1.private_data ≠ NULL ∧
    mykmod_open MYDEV_LEN st2 inodep filep2 info2 data2 =
      some (0, { filep2 with private_data := filep1.private_data }, st2) := by
  obtain ⟨hrec, hnn⟩ := mykmod_open_attaches MYDEV_LEN st st1 inodep filep filep1 info data 0 hopen
  have hkeep := run_keeps_i_private MYDEV_LEN virt_to_page ops st1 st2 hrun inodep
    (by rw [hrec]; exact hnn)
  have hset : st2.i_private inodep ≠ NULL := by rw [hkeep, hrec]; exact hnn
  refine ⟨hnn, ?_⟩
  rw [mykmod_open_again MYDEV_LEN st2 inodep filep2 info2 data2 hset, hkeep, hrec]

/-- Inode 7 is opened, closed, and opened again with fresh allocator results:
the second open hands out the record `0x10000` of the first. -/
theorem mykmod_open_same_record_witness :
    (⟨0x10000⟩ : file).private_data ≠ NULL ∧
    mykmod_open one_megabyte opened_once 7 ⟨NULL⟩ 0x10010 0x40100000 =
      some (0, { (⟨NULL⟩ : file) with private_data := (⟨0x10000⟩ : file).private_data },
        opened_once) :=
  mykmod_open_same_record one_megabyte page_frame initial opened_once opened_once 7
    ⟨NULL⟩ ⟨0x10000⟩ ⟨NULL⟩ 0x10000 0x40000000 0x10010 0x40100000
    [Op.do_close 7 ⟨0x10000⟩]
    (mykmod_open_fresh one_megabyte initial 7 ⟨NULL⟩ 0x10000 0x40000000 rfl (by decide)
      (by decide) (by decide))
    rfl

/-! ## The device table -/

theorem run_opens_append (MYDEV_LEN : Nat) (xs ys : List open_call) :
    ∀ st : State, run_opens MYDEV_LEN st (xs ++ ys) =
      (run_opens MYDEV_LEN st xs).bind (fun st1 => run_opens MYDEV_LEN st1 ys) := by
  induction xs with
  | nil => intro st; rfl
  | cons c cs ih =>
    intro st
    simp only [List.cons_append, run_opens]
    split
    · rfl
    · exact ih _

/-- Opens of pairwise distinct, never opened inodes, as long as the guard
`n_dev <= MYKMOD_MAX_DEVS` lets every one of them store: call `j` stores its
record at index `n_dev + j`, and `n_dev` grows by the number of calls. -/
theorem run_opens_fill (MYDEV_LEN : Nat) (calls : List open_call) :
    ∀ st : State, st.dev_table ≠ NULL →
      st.n_dev + calls.length ≤ MYKMOD_MAX_DEVS + 1 →
      (∀ c ∈ calls, st.i_private c.inodep = NULL) →
      (calls.map open_call.inodep).Nodup →
      (∀ c ∈ calls, c.info ≠ NULL) →
      ∃ st1 : State, run_opens MYDEV_LEN st calls = some st1 ∧
        st1.n_dev = st.n_dev + calls.length ∧
        st1.dev_table = st.dev_table ∧
        (∀ i, i < st.n_dev → st1.dev_slots i = st.dev_slots i) ∧
        (∀ j (hj : j < calls.length), st1.dev_slots (st.n_dev + j) = calls[j].info) ∧
        (∀ i, (∀ c ∈ calls, c.inodep ≠ i) → st1.i_private i = st.i_private i) := by
  induction calls with
  | nil =>
    intro st _ _ _ _ _
    exact ⟨st, rfl, rfl, rfl, fun _ _ => rfl, fun j hj => absurd hj (Nat.not_lt_zero j),
      fun _ _ => rfl⟩
  | cons c cs ih =>
    intro st htable hlen hfresh hdistinct halloc
    simp only [List.length_cons] at hlen
    have hguard : st.n_dev ≤ MYKMOD_MAX_DEVS := by omega
    obtain ⟨s, hc, hs_tab, hs_n, hs_slots, hs_priv⟩ : ∃ s : State,
        mykmod_open MYDEV_LEN st c.inodep ⟨NULL⟩ c.info c.data = some (0, ⟨c.info⟩, s) ∧
        s.dev_table = st.dev_table ∧ s.n_dev = st.n_dev + 1 ∧
        s.dev_slots = Function.update st.dev_slots st.n_dev c.info ∧
        s.i_private = Function.update st.i_private c.inodep c.info :=
      ⟨_, mykmod_open_fresh MYDEV_LEN st c.inodep ⟨NULL⟩ c.info c.data
        (hfresh c (List.mem_cons_self c cs)) (halloc c (List.mem_cons_self c cs)) hguard htable,
        rfl, rfl, rfl, rfl⟩
    simp only [List.map_cons, List.nodup_cons, List.mem_map, not_exists, not_and] at hdistinct
    obtain ⟨hhead, htail⟩ := hdistinct
    obtain ⟨st1, hrun, hn, htab, hlow, hslot, hpriv⟩ := ih s (by rw [hs_tab]; exact htable)
      (by rw [hs_n]; omega)
      (by
        intro c2 hc2
        have hne : c2.inodep ≠ c.inodep := hhead c2 hc2
        rw [hs_priv, Function.update_noteq hne]
        exact hfresh c2 (List.mem_cons_of_mem c hc2))
      htail
      (fun c2 hc2 => halloc c2 (List.mem_cons_of_mem c hc2))
    refine ⟨st1, ?_, ?_, ?_, ?_, ?_, ?_⟩
    · simp only [run_opens, hc]
      exact hrun
    · simp only [List.length_cons]
      omega
    · rw [htab, hs_tab]
    · intro i hi
      rw [hlow i (by omega), hs_slots, Function.update_noteq (by omega)]
    · intro j hj
      cases j with
      | zero =>
        rw [Nat.add_zero, hlow st.n_dev (by omega), hs_slots]
        simp
      | succ k =>
        simp only [List.length_cons] at hj
        have h1 := hslot k (by omega)
        have he : st.n_dev + (k + 1) = s.n_dev + k := by omega
        rw [he, h1]
        rfl
    · intro i hi
      rw [hpriv i (fun c2 hc2 => hi c2 (List.mem_cons_of_mem c hc2)), hs_priv,
        Function.update_noteq (fun h => hi c (List.mem_cons_self c cs) h.symm)]

/-- The release loop frees `dev_table[i]`, `dev_table[i + 1]`, ...,
`dev_table[n_dev - 1]`, in this order. -/
theorem cleanup_loop_eq (st : State) :
    ∀ (k i : Nat) (freed : List Ptr), st.n_dev - i = k →
      cleanup_loop st i freed = freed ++ (List.range' i k).map st.dev_slots := by
  intro k
  induction k with
  | zero =>
    intro i freed hk
    rw [cleanup_loop, if_neg (by omega)]
    simp
  | succ k ih =>
    intro i freed hk
    rw [cleanup_loop, if_pos (by omega), ih (i + 1) _ (by omega)]
    simp [List.range'_succ]

theorem cleanup_loop_all (st : State) :
    cleanup_loop st 0 [] = (List.range st.n_dev).map st.dev_slots := by
  rw [cleanup_loop_eq st st.n_dev 0 [] rfl, List.range_eq_range']
  simp

theorem fresh_calls_length (n : Nat) : (fresh_calls n).length = n := by
  simp [fresh_calls]

theorem fresh_calls_inodes (n : Nat) :
    (fresh_calls n).map open_call.inodep = List.range n := by
  simp [fresh_calls, Function.comp_def]

theorem fresh_calls_mem (n : Nat) (c : open_call) (hc : c ∈ fresh_calls n) :
    c.inodep < n ∧ c.info = 0x10000 + 16 * c.inodep := by
  simp only [fresh_calls, List.mem_map, List.mem_range] at hc
  obtain ⟨i, hi, rfl⟩ := hc
  exact ⟨hi, rfl⟩

theorem fresh_calls_info (n j : Nat) (hj : j < (fresh_calls n).length) :
    (fresh_calls n)[j].info = 0x10000 + 16 * j := by
  simp [fresh_calls]

theorem fresh_calls_succ (n : Nat) :
    fresh_calls (n + 1) =
      fresh_calls n ++ [⟨n, 0x10000 + 16 * n, 0x40000000 + 0x100000 * n⟩] := by
  simp [fresh_calls, List.range_succ]

/-- The table after 257 opens of distinct fresh inodes from `initial`. -/
theorem run_opens_fresh_257 :
    ∃ st1 : State, run_opens one_megabyte initial (fresh_calls 257) = some st1 ∧
      st1.n_dev = 257 ∧
      (∀ j, j < 257 → st1.dev_slots j = 0x10000 + 16 * j) ∧
      (∀ i, 257 ≤ i → st1.i_private i = NULL) := by
  have h0 : initial.n_dev = 0 := rfl
  obtain ⟨st1, hrun, hn, -, -, hslot, hpriv⟩ := run_opens_fill one_megabyte (fresh_calls 257)
    initial (by decide) (by rw [fresh_calls_length, h0]; decide) (fun _ _ => rfl)
    (by rw [fresh_calls_inodes]; exact List.nodup_range 257)
    (by
      intro c hc
      intro h
      have h2 : 0x10000 + 16 * c.inodep = 0 := by
        rw [← (fresh_calls_mem 257 c hc).2]
        exact h
      omega)
  refine ⟨st1, hrun, by rw [hn, h0, fresh_calls_length], ?_, ?_⟩
  · intro j hj
    have h1 := hslot j (by rw [fresh_calls_length]; exact hj)
    rw [h0, Nat.zero_add, fresh_calls_info] at h1
    exact h1
  · intro i hi
    rw [hpriv i (fun c hc h => by have := (fresh_calls_mem 257 c hc).1; omega)]
    rfl

/-- C8 (the code departs from the claim). Starting from the initial state
(`n_dev = 0`, table of `MYKMOD_MAX_DEVS` words), 257 `mykmod_open` calls on
pairwise distinct, never opened inodes all succeed; the last one passes the
guard `n_dev <= MYKMOD_MAX_DEVS` with `n_dev = 256` and stores its record at
index 256 = `MYKMOD_MAX_DEVS`, one word past the end of the table, and leaves
`n_dev = 257`, above `MYKMOD_MAX_DEVS`. -/
theorem open_stores_past_table_end :
    ((fresh_calls 257).map open_call.inodep).Nodup ∧
    initial.n_dev = 0 ∧ initial.dev_slots MYKMOD_MAX_DEVS = NULL ∧
    ∃ st1 : State, run_opens one_megabyte initial (fresh_calls 257) = some st1 ∧
      st1.n_dev = 257 ∧ MYKMOD_MAX_DEVS < st1.n_dev ∧
      st1.dev_slots MYKMOD_MAX_DEVS = 0x10000 + 16 * 256 := by
  obtain ⟨st1, hrun, hn, hslot, -⟩ := run_opens_fresh_257
  refine ⟨by rw [fresh_calls_inodes]; exact List.nodup_range 257, rfl, rfl, st1, hrun, hn, ?_, ?_⟩
  · rw [hn]; decide
  · exact hslot 256 (by decide)

/-- C9 as stated fails: after 258 `mykmod_open` calls on pairwise distinct,
never opened inodes from the initial state, the Device Record created by the
last call (attached to inode 257, live in the heap) is held in no table slot
below `n_dev` and is not released by the loop of `mykmod_cleanup_module`. -/
theorem record_left_out_of_table :
    ((fresh_calls 258).map open_call.inodep).Nodup ∧
    ∃ st1 : State, run_opens one_megabyte initial (fresh_calls 258) = some st1 ∧
      st1.i_private 257 = 0x10000 + 16 * 257 ∧
      st1.dev_heap (0x10000 + 16 * 257) =
        some ⟨0x40000000 + 0x100000 * 257, one_megabyte⟩ ∧
      (∀ i, i < st1.n_dev → st1.dev_slots i ≠ 0x10000 + 16 * 257) ∧
      (0x10000 + 16 * 257) ∉ cleanup_loop st1 0 [] := by
  obtain ⟨s, hrun, hn, hslot, hpriv⟩ := run_opens_fresh_257
  obtain ⟨t, hlast, ht_priv, ht_heap, ht_slots, ht_n⟩ : ∃ t : State,
      mykmod_open one_megabyte s 257 ⟨NULL⟩ (0x10000 + 16 * 257)
        (0x40000000 + 0x100000 * 257) = some (0, ⟨0x10000 + 16 * 257⟩, t) ∧
      t.i_private 257 = 0x10000 + 16 * 257 ∧
      t.dev_heap (0x10000 + 16 * 257) =
        some ⟨0x40000000 + 0x100000 * 257, one_megabyte⟩ ∧
      t.dev_slots = s.dev_slots ∧ t.n_dev = s.n_dev :=
    ⟨_, mykmod_open_full one_megabyte s 257 ⟨NULL⟩ (0x10000 + 16 * 257)
      (0x40000000 + 0x100000 * 257) (hpriv 257 (Nat.le_refl 257)) (by decide)
      (by rw [hn]; decide), by simp, by simp, rfl, rfl⟩
  have hfree : ∀ i, i < t.n_dev → t.dev_slots i ≠ 0x10000 + 16 * 257 := by
    intro i hi h
    rw [ht_n, hn] at hi
    have h2 : 0x10000 + 16 * i = 0x10000 + 16 * 257 := by
      rw [← hslot i hi, ← ht_slots]
      exact h
    omega
  refine ⟨by rw [fresh_calls_inodes]; exact List.nodup_range 258, t, ?_, ht_priv, ht_heap,
    hfree, ?_⟩
  · rw [fresh_calls_succ 257, run_opens_append, hrun]
    simp only [Option.bind, run_opens, hlast]
  · rw [cleanup_loop_all]
    simp only [List.mem_map, List.mem_range, not_exists, not_and]
    intro i hi
    exact hfree i hi

/-- C9 (amended). Start from any state with `n_dev = 0` in which
`mykmod_init_module` succeeds (`register_chrdev` returns a non-negative major,
the table allocation is non-null), and open at most `MYKMOD_MAX_DEVS` pairwise
distinct, never opened inodes, each call being handed a non-null record
address different from those handed to the other calls. Then all opens
succeed, `n_dev` is the number of calls, every created Device Record is held
in exactly one table slot `dev_table[i]` with `i < n_dev`, and the release
loop of `mykmod_cleanup_module` frees exactly the created records, in creation
order, each exactly once (followed by the table itself). -/
theorem cleanup_releases_each_record_once (MYDEV_LEN : Nat) (st0 : State) (major : Int)
    (table : Ptr) (junk : Nat → Ptr) (calls : List open_call)
    (hn0 : st0.n_dev = 0) (hmajor : 0 ≤ major) (htable : table ≠ NULL)
    (hfresh : ∀ c ∈ calls, st0.i_private c.inodep = NULL)
    (hdistinct : (calls.map open_call.inodep).Nodup)
    (halloc : ∀ c ∈ calls, c.info ≠ NULL)
    (hinfos : (calls.map open_call.info).Nodup)
    (hlen : calls.length ≤ MYKMOD_MAX_DEVS) :
    ∃ st1 : State,
      run_opens MYDEV_LEN (mykmod_init_module st0 major table junk).2 calls = some st1 ∧
      st1.n_dev = calls.length ∧
      (∀ c ∈ calls, ∃! i, i < st1.n_dev ∧ st1.dev_slots i = c.info) ∧
      cleanup_loop st1 0 [] = calls.map open_call.info ∧
      (∀ c ∈ calls, (cleanup_loop st1 0 []).count c.info = 1) ∧
      mykmod_cleanup_module st1 = calls.map open_call.info ++ [table] := by
  obtain ⟨s0, hs0, hs_tab, hs_n, hs_priv⟩ : ∃ s0 : State,
      (mykmod_init_module st0 major table junk).2 = s0 ∧ s0.dev_table = table ∧
      s0.n_dev = 0 ∧ s0.i_private = st0.i_private := by
    refine ⟨_, rfl, ?_, ?_, ?_⟩
    · simp [mykmod_init_module, not_lt.mpr hmajor]
    · simp [mykmod_init_module, not_lt.mpr hmajor, hn0]
    · simp [mykmod_init_module, not_lt.mpr hmajor]
  rw [hs0]
  obtain ⟨st1, hrun, hn, htab, -, hslot, -⟩ := run_opens_fill MYDEV_LEN calls s0
    (by rw [hs_tab]; exact htable) (by rw [hs_n]; omega)
    (by rw [hs_priv]; exact hfresh) hdistinct halloc
  rw [hs_n, Nat.zero_add] at hn
  have hslot0 : ∀ j (hj : j < calls.length), st1.dev_slots j = calls[j].info := by
    intro j hj
    have h1 := hslot j hj
    rw [hs_n, Nat.zero_add] at h1
    exact h1
  have hlist : cleanup_loop st1 0 [] = calls.map open_call.info := by
    rw [cleanup_loop_all]
    apply List.ext_getElem
    · simp [hn]
    · intro i h1 h2
      simp only [List.length_map] at h2
      simp [hslot0 i h2]
  refine ⟨st1, hrun, hn, ?_, hlist, ?_, ?_⟩
  · intro c hc
    obtain ⟨j, hj, hcj⟩ := List.getElem_of_mem hc
    refine ⟨j, ⟨by omega, by rw [hslot0 j hj, hcj]⟩, ?_⟩
    rintro i ⟨hi, hsl⟩
    rw [hn] at hi
    rw [hslot0 i hi, ← hcj] at hsl
    have hi2 : i < (calls.map open_call.info).length := by simpa using hi
    have hj2 : j < (calls.map open_call.info).length := by simpa using hj
    have heq : (calls.map open_call.info)[i] = (calls.map open_call.info)[j] := by
      simpa using hsl
    exact (hinfos.getElem_inj_iff).mp heq
  · intro c hc
    rw [hlist]
    exact List.count_eq_one_of_mem hinfos (List.mem_map_of_mem _ hc)
  · unfold mykmod_cleanup_module
    rw [hlist, htab, hs_tab]

/-- Three devices opened after a successful module initialisation. -/
theorem cleanup_releases_each_record_once_witness :
    ∃ st1 : State,
      run_opens one_megabyte (mykmod_init_module boot 240 0x8000 (fun _ => NULL)).2
        (fresh_calls 3) = some st1 ∧
      st1.n_dev = (fresh_calls 3).length ∧
      (∀ c ∈ fresh_calls 3, ∃! i, i < st1.n_dev ∧ st1.dev_slots i = c.info) ∧
      cleanup_loop st1 0 [] = (fresh_calls 3).map open_call.info ∧
      (∀ c ∈ fresh_calls 3, (cleanup_loop st1 0 []).count c.info = 1) ∧
      mykmod_cleanup_module st1 = (fresh_calls 3).map open_call.info ++ [0x8000] :=
  cleanup_releases_each_record_once one_megabyte boot 240 0x8000 (fun _ => NULL)
    (fresh_calls 3) rfl (by decide) (by decide) (fun _ _ => rfl) (by decide) (by decide)
    (by decide) (by decide)

end Mykmod
